import Mathlib

/-!
Shallow embedding of the GraphK core (src/core/nodes.py, src/core/pipeline.py)
and proofs about its Gate / Node / BranchNode / Pipeline operations.

Modelling conventions:
* A context is the `Optional[Mapping[str, Any]]` of the source, embedded as an
  optional association list.
* Python exceptions become `Except PyErr`; `TypeError` is raised by the
  interpreter when a non-callable is called, `RuntimeError` by explicit
  `raise` statements in the source.
* Python attribute names that Lean cannot spell verbatim are renamed with a
  comment next to the field: `_condition_` becomes `uscore_condition`,
  `_weight_` becomes `uscore_weight`, `_running_` becomes `running`,
  `_nodes_` becomes `nodes`, `_strategy_` becomes `strategy`.
* `random.choice(seq)` draws an index below `len(seq)` from the process-global
  random generator.  The ambient generator state at the call is reified as a
  function `pick : Nat → Nat` handed to `select`: given the length of the
  sequence it yields the drawn index (reduced mod the length, mirroring the
  guarantee that `choice` returns a member of the sequence).  The Python
  method itself takes no randomness argument.
-/

/-- Contexts: `Optional[Mapping[str, Any]]` from the source, embedded as an
optional association list of string keys to integer values. -/
abbrev Ctx : Type := Option (List (String × Int))

/-- A checker (`Checker = Callable[[Any], bool]` in the source). -/
abbrev Checker : Type := Ctx → Bool

/-- Python errors that the embedded operations can raise. -/
inductive PyErr : Type where
  | typeError : PyErr
  | runtimeError : String → PyErr

/-- `Gate` from src/core/nodes.py: a list of checkers and a strategy
(a plain Python int). `__init__` normalizes `checkers` to a list. -/
structure Gate : Type where
  checkers : List Checker
  strategy : Int

/-- Strategy constant `Gate.ALL_MATCH = 1`. -/
def Gate.ALL_MATCH : Int := 1

/-- Strategy constant `Gate.ANY_MATCH = 2`. -/
def Gate.ANY_MATCH : Int := 2

/-- Strategy constant `Gate.NONE_MATCH = 3`. -/
def Gate.NONE_MATCH : Int := 3

/-- `Gate.assess`: the boolean value computed from the checkers under the
gate's strategy.  `all` / `any` / `not any` over the checker results, `False`
for any other strategy value. -/
def Gate.assess (g : Gate) (context : Ctx) : Bool :=
  if g.strategy = Gate.ALL_MATCH then
    g.checkers.all (fun func => func context)
  else if g.strategy = Gate.ANY_MATCH then
    g.checkers.any (fun func => func context)
  else if g.strategy = Gate.NONE_MATCH then
    !(g.checkers.any (fun func => func context))
  else
    false

/-- Number of checkers `all(...)` consumes from the generator
`(func(context) for func in self.checkers)`: Python `all` stops at the first
element that is false. -/
def consumedAll (fs : List Checker) (context : Ctx) : Nat :=
  match fs with
  | [] => 0
  | f :: rest => if f context then consumedAll rest context + 1 else 1

/-- Number of checkers `any(...)` consumes from the generator: Python `any`
stops at the first element that is true. -/
def consumedAny (fs : List Checker) (context : Ctx) : Nat :=
  match fs with
  | [] => 0
  | f :: rest => if f context then 1 else consumedAny rest context + 1

/-- How many checkers one call of `Gate.assess` invokes.  The checkers sit in
a generator, so `all`/`any` consume it lazily; with an unrecognized strategy
the generator is never iterated and no checker runs. -/
def Gate.assessCalls (g : Gate) (context : Ctx) : Nat :=
  if g.strategy = Gate.ALL_MATCH then
    consumedAll g.checkers context
  else if g.strategy = Gate.ANY_MATCH then
    consumedAny g.checkers context
  else if g.strategy = Gate.NONE_MATCH then
    consumedAny g.checkers context
  else
    0

/-- `Gate.assess` in state-passing form: the method reads `self` and assigns
no attribute, so the gate component of the result is the input gate. -/
def Gate.assessS (g : Gate) (context : Ctx) : Bool × Gate :=
  (Gate.assess g context, g)

/-- A (leaf) `Node` from src/core/nodes.py.  `Node.__init__` stores `context`
and, when provided, `id`, `condition`, `validation`, `weight`; arbitrary
keyword arguments are merged into `__dict__`, which is the only way the
attributes `_condition_` (`uscore_condition` here) and `_weight_`
(`uscore_weight` here) read by `BranchNode.select` can come to exist. -/
structure PyNode : Type where
  context : Ctx := none
  id : Option String := none
  condition : Option Gate := none
  validation : Option Gate := none
  weight : Option Int := none
  uscore_condition : Option Gate := none
  uscore_weight : Option Int := none

/-- `BranchNode` from src/core/nodes.py: `_nodes_` (here `nodes`) and
`_strategy_` (here `strategy`); `super().__init__(id=id)` leaves the inherited
node attributes at their defaults. -/
structure BranchNode : Type where
  id : Option String := none
  nodes : List PyNode
  strategy : Int

/-- Strategy constant `BranchNode.SELECT_FIRST = 0`. -/
def BranchNode.SELECT_FIRST : Int := 0

/-- Strategy constant `BranchNode.SELECT_RANDOM = 1`. -/
def BranchNode.SELECT_RANDOM : Int := 1

/-- Strategy constant `BranchNode.SELECT_BEST = 2`. -/
def BranchNode.SELECT_BEST : Int := 2

/-- `BranchNode.step` raises
`RuntimeError("BranchNode.step() is not a valid operation.")`. -/
def BranchNode.step (_b : BranchNode) : Except PyErr (List Int) :=
  .error (.runtimeError "BranchNode.step() is not a valid operation.")

/-- The filtering loop of `BranchNode.select`.  For each node it reads
`getattr(node, '_condition_', None)`.  When that attribute is absent the node
is valid.  When it is present the source evaluates
`condition.assess(node.context())`: `node.context` is the data stored by
`Node.__init__` (an `Optional[Mapping]`, per its own annotation), so calling
it raises `TypeError` before `assess` ever runs. -/
def validNodes : List PyNode → Except PyErr (List PyNode)
  | [] => .ok []
  | node :: rest =>
    match node.uscore_condition with
    | some _ => .error .typeError
    | none =>
      match validNodes rest with
      | .error e => .error e
      | .ok vs => .ok (node :: vs)

/-- The key `lambda n: getattr(n, '_weight_', 0)` used by `SELECT_BEST`. -/
def weightKey (n : PyNode) : Int :=
  n.uscore_weight.getD 0

/-- Python `max(iterable, key=...)`: fold keeping the current best, replacing
it only when a later element's key is strictly greater, so the earliest
maximal element wins. -/
def maxFrom (best : PyNode) : List PyNode → PyNode
  | [] => best
  | n :: rest => maxFrom (if weightKey best < weightKey n then n else best) rest

/-- `BranchNode.select`.  Filters `_nodes_` through the `_condition_` check,
returns `None` when no valid node remains, then applies the selection
strategy; a strategy outside the three constants leaves `selected_node` as
`None`.  `pick` reifies the state of the global random generator consumed by
`random.choice` (see the module comment). -/
def BranchNode.select (b : BranchNode) (pick : Nat → Nat) :
    Except PyErr (Option PyNode) :=
  match validNodes b.nodes with
  | .error e => .error e
  | .ok valid =>
    if valid.isEmpty then
      .ok none
    else if b.strategy = BranchNode.SELECT_FIRST then
      .ok valid.head?
    else if b.strategy = BranchNode.SELECT_RANDOM then
      .ok valid[pick valid.length % valid.length]?
    else if b.strategy = BranchNode.SELECT_BEST then
      .ok (match valid with | [] => none | v :: rest => some (maxFrom v rest))
    else
      .ok none

/-- `BranchNode.select` in state-passing form: the method assigns no
attribute of `self`, so the branch component of the result is the input. -/
def BranchNode.selectS (b : BranchNode) (pick : Nat → Nat) :
    Except PyErr (Option PyNode) × BranchNode :=
  (BranchNode.select b pick, b)

/-- `Pipeline` from src/core/pipeline.py: `_nodes_` (here `nodes`) and the
`_running_` flag (here `running`), initialized to `False` by `__init__`. -/
structure Pipeline : Type where
  id : Option String := none
  nodes : List PyNode
  running : Bool := false

/-- `Pipeline.step` raises
`RuntimeError("Pipeline.step() is not a valid operation.")`. -/
def Pipeline.step (_p : Pipeline) : Except PyErr (List Int) :=
  .error (.runtimeError "Pipeline.step() is not a valid operation.")

/-- `Pipeline.start` assigns `self._running_ = True` on the template. -/
def Pipeline.start (p : Pipeline) : Pipeline :=
  { p with running := true }

/-- `Pipeline.pause` assigns `self._running_ = False` on the template. -/
def Pipeline.pause (p : Pipeline) : Pipeline :=
  { p with running := false }

/-! ### Concrete instances used by the theorems below -/

/-- A reified global-generator state that draws index 0. -/
def pickZero : Nat → Nat := fun _ => 0

/-- A reified global-generator state that draws index 1. -/
def pickOne : Nat → Nat := fun _ => 1

/-- A gate whose single checker is constantly false. -/
def condFalse : Gate := { checkers := [fun _ => false], strategy := Gate.ALL_MATCH }

/-- A child whose condition gate (constructor keyword `condition=`) is `condFalse`. -/
def childGated : PyNode := { id := some "a", condition := some condFalse }

/-- A child with no condition gate. -/
def childOpen : PyNode := { id := some "b" }

/-- A second child with no condition gate. -/
def childOpen2 : PyNode := { id := some "d" }

/-- A child carrying `condFalse` under the `_condition_` attribute (only
reachable through `Node.__init__`'s `**kwargs`). -/
def childGatedAttr : PyNode := { id := some "a", uscore_condition := some condFalse }

/-- SELECT_FIRST branch over `[childGated, childOpen]`. -/
def branchFirstGated : BranchNode :=
  { nodes := [childGated, childOpen], strategy := BranchNode.SELECT_FIRST }

/-- SELECT_FIRST branch over `[childGatedAttr, childOpen]`. -/
def branchFirstGatedAttr : BranchNode :=
  { nodes := [childGatedAttr, childOpen], strategy := BranchNode.SELECT_FIRST }

/-- Child with constructor weight 3. -/
def nodeW3 : PyNode := { id := some "a", weight := some 3 }

/-- Child with constructor weight 7. -/
def nodeW7 : PyNode := { id := some "b", weight := some 7 }

/-- Second child with constructor weight 7. -/
def nodeW7b : PyNode := { id := some "c", weight := some 7 }

/-- SELECT_BEST branch over children with constructor weights `[3, 7, 7]`. -/
def branchBest : BranchNode :=
  { nodes := [nodeW3, nodeW7, nodeW7b], strategy := BranchNode.SELECT_BEST }

/-- SELECT_RANDOM branch over two unconditioned children. -/
def branchRandom : BranchNode :=
  { nodes := [childOpen, childOpen2], strategy := BranchNode.SELECT_RANDOM }

/-- A branch with zero children. -/
def branchEmpty : BranchNode := { nodes := [], strategy := BranchNode.SELECT_FIRST }

/-- Another branch with zero children (SELECT_BEST). -/
def branchEmpty2 : BranchNode :=
  { id := some "e2", nodes := [], strategy := BranchNode.SELECT_BEST }

/-- A branch whose strategy value 5 is none of the three selection constants. -/
def branchUnknown : BranchNode := { nodes := [childOpen], strategy := 5 }

/-- A gate whose single checker is constantly true (ALL_MATCH). -/
def gateAllTrue : Gate := { checkers := [fun _ => true], strategy := Gate.ALL_MATCH }

/-- An ALL_MATCH gate whose two checkers are both constantly true. -/
def gateTwoTrue : Gate :=
  { checkers := [fun _ => true, fun _ => true], strategy := Gate.ALL_MATCH }

/-- An ALL_MATCH gate whose first checker is false and second is true. -/
def gateShort : Gate :=
  { checkers := [fun _ => false, fun _ => true], strategy := Gate.ALL_MATCH }

/-- A pipeline template with `_running_ = False` as left by `__init__`. -/
def pipePlain : Pipeline := { nodes := [childOpen] }

/-- A second pipeline template with `_running_ = False`. -/
def pipeW : Pipeline := { id := some "w", nodes := [] }

/-- A branch used by the step/empty-select witness. -/
def branchStepW : BranchNode :=
  { id := some "sw", nodes := [], strategy := BranchNode.SELECT_RANDOM }

/-! ### Helper lemmas about generator consumption -/

/-- `all` consumes at most the whole generator. -/
theorem consumedAll_le (fs : List Checker) (c : Ctx) : consumedAll fs c ≤ fs.length := by
  induction fs with
  | nil => simp [consumedAll]
  | cons f rest ih =>
    by_cases h : f c = true
    · simp only [consumedAll, h, if_true, List.length_cons]
      omega
    · simp only [consumedAll, h, if_false, Bool.false_eq_true, List.length_cons]
      omega

/-- `any` consumes at most the whole generator. -/
theorem consumedAny_le (fs : List Checker) (c : Ctx) : consumedAny fs c ≤ fs.length := by
  induction fs with
  | nil => simp [consumedAny]
  | cons f rest ih =>
    by_cases h : f c = true
    · simp only [consumedAny, h, if_true, List.length_cons]
      omega
    · simp only [consumedAny, h, if_false, Bool.false_eq_true, List.length_cons]
      omega

/-- When every checker is true, `all` consumes the whole generator. -/
theorem consumedAll_of_all (fs : List Checker) (c : Ctx)
    (h : fs.all (fun f => f c) = true) : consumedAll fs c = fs.length := by
  induction fs with
  | nil => simp [consumedAll]
  | cons f rest ih =>
    rw [List.all_cons, Bool.and_eq_true] at h
    simp [consumedAll, h.1, ih h.2]

/-- When no checker is true, `any` consumes the whole generator. -/
theorem consumedAny_of_not_any (fs : List Checker) (c : Ctx)
    (h : fs.any (fun f => f c) = false) : consumedAny fs c = fs.length := by
  induction fs with
  | nil => simp [consumedAny]
  | cons f rest ih =>
    rw [List.any_cons, Bool.or_eq_false_iff] at h
    simp [consumedAny, h.1, ih h.2]

/-! ### Claim theorems -/

/-- C3: for every Gate and context, `assess` is true under ALL_MATCH iff
every checker returns true, under ANY_MATCH iff at least one checker returns
true, under NONE_MATCH iff zero checkers return true, and is false under any
strategy value other than these three. -/
theorem gate_assess_strategy_laws (g : Gate) (c : Ctx) :
    (g.strategy = Gate.ALL_MATCH →
      (g.assess c = true ↔ ∀ f ∈ g.checkers, f c = true)) ∧
    (g.strategy = Gate.ANY_MATCH →
      (g.assess c = true ↔ ∃ f ∈ g.checkers, f c = true)) ∧
    (g.strategy = Gate.NONE_MATCH →
      (g.assess c = true ↔ ∀ f ∈ g.checkers, f c = false)) ∧
    (g.strategy ≠ Gate.ALL_MATCH → g.strategy ≠ Gate.ANY_MATCH →
      g.strategy ≠ Gate.NONE_MATCH → g.assess c = false) := by
  refine ⟨fun h => ?_, fun h => ?_, fun h => ?_, fun h1 h2 h3 => ?_⟩
  · simp [Gate.assess, h, Gate.ALL_MATCH, List.all_eq_true]
  · simp [Gate.assess, h, Gate.ALL_MATCH, Gate.ANY_MATCH, List.any_eq_true]
  · simp [Gate.assess, h, Gate.ALL_MATCH, Gate.ANY_MATCH, Gate.NONE_MATCH,
      List.any_eq_true]
  · simp [Gate.assess, h1, h2, h3]

/-- Witness for `gate_assess_strategy_laws` at a concrete ALL_MATCH gate. -/
theorem gate_assess_strategy_laws_w : Gate.assess gateAllTrue none = true :=
  ((gate_assess_strategy_laws gateAllTrue none).1 rfl).mpr (by simp [gateAllTrue])

/-- C10: a Gate built from an empty checker sequence assesses true under
ALL_MATCH, false under ANY_MATCH, and true under NONE_MATCH, on every
context. -/
theorem gate_empty_checkers (c : Ctx) :
    Gate.assess { checkers := [], strategy := Gate.ALL_MATCH } c = true ∧
    Gate.assess { checkers := [], strategy := Gate.ANY_MATCH } c = false ∧
    Gate.assess { checkers := [], strategy := Gate.NONE_MATCH } c = true :=
  ⟨rfl, rfl, rfl⟩

/-- C7 counterexample: an ALL_MATCH gate whose first checker returns false
invokes only one of its two checkers — `all` consumes the checker generator
lazily, so `assess` does not invoke every checker. -/
theorem assess_short_circuits :
    Gate.assessCalls gateShort none = 1 ∧
    gateShort.checkers.length = 2 ∧ (1 : Nat) ≠ 2 :=
  ⟨rfl, rfl, by decide⟩

/-- C7 amended: `assess` invokes checkers in order, each at most once; every
checker is invoked exactly when no short-circuit occurs (ALL_MATCH with a
true result, ANY_MATCH with a false result, NONE_MATCH with a true result),
and an unrecognized strategy invokes no checker at all. -/
theorem assess_invocation_counts (g : Gate) (c : Ctx) :
    Gate.assessCalls g c ≤ g.checkers.length ∧
    (g.strategy = Gate.ALL_MATCH → g.assess c = true →
      Gate.assessCalls g c = g.checkers.length) ∧
    (g.strategy = Gate.ANY_MATCH → g.assess c = false →
      Gate.assessCalls g c = g.checkers.length) ∧
    (g.strategy = Gate.NONE_MATCH → g.assess c = true →
      Gate.assessCalls g c = g.checkers.length) ∧
    (g.strategy ≠ Gate.ALL_MATCH → g.strategy ≠ Gate.ANY_MATCH →
      g.strategy ≠ Gate.NONE_MATCH → Gate.assessCalls g c = 0) := by
  refine ⟨?_, fun h ha => ?_, fun h ha => ?_, fun h ha => ?_, fun h1 h2 h3 => ?_⟩
  · unfold Gate.assessCalls
    split_ifs
    · exact consumedAll_le _ _
    · exact consumedAny_le _ _
    · exact consumedAny_le _ _
    · exact Nat.zero_le _
  · unfold Gate.assess at ha
    rw [if_pos h] at ha
    unfold Gate.assessCalls
    rw [if_pos h]
    exact consumedAll_of_all _ _ ha
  · have hne : ¬ g.strategy = Gate.ALL_MATCH := by rw [h]; decide
    unfold Gate.assess at ha
    rw [if_neg hne, if_pos h] at ha
    unfold Gate.assessCalls
    rw [if_neg hne, if_pos h]
    exact consumedAny_of_not_any _ _ ha
  · have hne1 : ¬ g.strategy = Gate.ALL_MATCH := by rw [h]; decide
    have hne2 : ¬ g.strategy = Gate.ANY_MATCH := by rw [h]; decide
    unfold Gate.assess at ha
    rw [if_neg hne1, if_neg hne2, if_pos h, Bool.not_eq_true'] at ha
    unfold Gate.assessCalls
    rw [if_neg hne1, if_neg hne2, if_pos h]
    exact consumedAny_of_not_any _ _ ha
  · unfold Gate.assessCalls
    rw [if_neg h1, if_neg h2, if_neg h3]

/-- Witness for `assess_invocation_counts`: with two true checkers under
ALL_MATCH, both checkers are consumed. -/
theorem assess_invocation_counts_w :
    Gate.assessCalls gateTwoTrue none = gateTwoTrue.checkers.length :=
  (assess_invocation_counts gateTwoTrue none).2.1 rfl rfl

/-- C1 failing input: the gate `condFalse` assesses false on the gated
child's own context, yet SELECT_FIRST returns that child — `select` consults
only the `_condition_` attribute, never the `condition` stored by the
constructor; and when the same gate is attached as `_condition_`, `select`
raises TypeError (it calls `node.context()` although `context` holds data). -/
theorem select_first_ignores_condition_gate :
    condFalse.assess childGated.context = false ∧
    childGated.condition = some condFalse ∧
    BranchNode.select branchFirstGated pickZero = .ok (some childGated) ∧
    BranchNode.select branchFirstGatedAttr pickZero = .error .typeError :=
  ⟨rfl, rfl, rfl, rfl⟩

/-- C2 failing input: with constructor weights `[3, 7, 7]`, SELECT_BEST
returns the first child, not the second — the `max` key reads the absent
`_weight_` attribute, so every candidate counts as 0. -/
theorem select_best_ignores_constructor_weight :
    BranchNode.select branchBest pickZero = .ok (some nodeW3) ∧
    nodeW3.weight = some 3 ∧ nodeW7.weight = some 7 ∧ nodeW3 ≠ nodeW7 :=
  ⟨rfl, rfl, rfl, fun h => absurd (congrArg PyNode.weight h) (by decide)⟩

/-- C4 counterexample: `start()` changes the shared Pipeline template — the
template is not immutable, since the runtime `_running_` flag lives on it. -/
theorem pipeline_start_mutates_template :
    pipePlain.running = false ∧ Pipeline.start pipePlain ≠ pipePlain :=
  ⟨rfl, fun h => absurd (congrArg Pipeline.running h) (by decide)⟩

/-- C4 amended: `Gate.assess` and `BranchNode.select` leave their object
unchanged, and `Pipeline.start`/`Pipeline.pause` touch only the `_running_`
flag — but they do mutate that flag on the shared template, so a template
whose flag is false is not the same template after `start()`. -/
theorem template_mutability (g : Gate) (c : Ctx) (b : BranchNode)
    (pick : Nat → Nat) (p : Pipeline) :
    (Gate.assessS g c).2 = g ∧
    (BranchNode.selectS b pick).2 = b ∧
    (Pipeline.start p).running = true ∧
    (Pipeline.start p).nodes = p.nodes ∧
    (Pipeline.start p).id = p.id ∧
    (Pipeline.pause p).running = false ∧
    (p.running = false → Pipeline.start p ≠ p) := by
  refine ⟨rfl, rfl, rfl, rfl, rfl, rfl, fun hr h => ?_⟩
  have h2 := congrArg Pipeline.running h
  simp [Pipeline.start, hr] at h2

/-- Witness for `template_mutability` at a concrete fresh template. -/
theorem template_mutability_w : Pipeline.start pipeW ≠ pipeW :=
  (template_mutability gateAllTrue none branchEmpty pickZero pipeW).2.2.2.2.2.2 rfl

/-- C5 counterexample: `select()` on a branch with zero children returns
`None`; no exception is raised. -/
theorem select_zero_children_returns_none :
    branchEmpty.nodes = [] ∧
    BranchNode.select branchEmpty pickZero = .ok none :=
  ⟨rfl, rfl⟩

/-- C5 amended: `step()` on a BranchNode or a Pipeline raises RuntimeError
(the InvalidOperation of the spec), while `select()` on a branch with zero
children returns `None` without raising. -/
theorem step_disallowed_and_empty_select_none (b : BranchNode) (p : Pipeline)
    (pick : Nat → Nat) (hb : b.nodes = []) :
    BranchNode.step b =
      .error (.runtimeError "BranchNode.step() is not a valid operation.") ∧
    Pipeline.step p =
      .error (.runtimeError "Pipeline.step() is not a valid operation.") ∧
    BranchNode.select b pick = .ok none := by
  refine ⟨rfl, rfl, ?_⟩
  unfold BranchNode.select
  rw [hb]
  rfl

/-- Witness for `step_disallowed_and_empty_select_none` at concrete inputs. -/
theorem step_disallowed_and_empty_select_none_w :
    BranchNode.step branchStepW =
      .error (.runtimeError "BranchNode.step() is not a valid operation.") ∧
    Pipeline.step pipeW =
      .error (.runtimeError "Pipeline.step() is not a valid operation.") ∧
    BranchNode.select branchStepW pickZero = .ok none :=
  step_disallowed_and_empty_select_none branchStepW pipeW pickZero rfl

/-- C6: whenever the filtering pass produces an empty valid set, `select`
returns `None` and raises nothing. -/
theorem select_empty_valid_set_none (b : BranchNode) (pick : Nat → Nat)
    (h : validNodes b.nodes = .ok []) :
    BranchNode.select b pick = .ok none := by
  unfold BranchNode.select
  rw [h]
  rfl

/-- Witness for `select_empty_valid_set_none` at a concrete branch. -/
theorem select_empty_valid_set_none_w :
    BranchNode.select branchEmpty2 pickOne = .ok none :=
  select_empty_valid_set_none branchEmpty2 pickOne rfl

/-- C8 failing input: `select()` accepts no seed; under SELECT_RANDOM the
chosen child is dictated by the ambient global generator state, and two
different ambient states yield two different children. -/
theorem select_random_reads_global_state :
    BranchNode.select branchRandom pickZero = .ok (some childOpen) ∧
    BranchNode.select branchRandom pickOne = .ok (some childOpen2) ∧
    childOpen ≠ childOpen2 :=
  ⟨rfl, rfl, fun h => absurd (congrArg PyNode.id h) (by decide)⟩

/-- C9: a strategy value outside the three selection constants makes `select`
return `None` even though the valid candidate set is non-empty. -/
theorem select_unknown_strategy_none (b : BranchNode) (pick : Nat → Nat)
    (v : PyNode) (vs : List PyNode) (hv : validNodes b.nodes = .ok (v :: vs))
    (h0 : b.strategy ≠ BranchNode.SELECT_FIRST)
    (h1 : b.strategy ≠ BranchNode.SELECT_RANDOM)
    (h2 : b.strategy ≠ BranchNode.SELECT_BEST) :
    BranchNode.select b pick = .ok none := by
  unfold BranchNode.select
  rw [hv]
  simp [h0, h1, h2]

/-- Witness for `select_unknown_strategy_none`: strategy 5, one open child. -/
theorem select_unknown_strategy_none_w :
    BranchNode.select branchUnknown pickZero = .ok none :=
  select_unknown_strategy_none branchUnknown pickZero childOpen [] rfl
    (by decide) (by decide) (by decide)
